import Mathlib

/-!
Verification of the boundary dispatch layer of the eip1962 crate
(`src/public_interface/unified_api.rs`).

The file `unified_api.rs` defines a pure-Rust dispatcher `perform_operation`
and a C-callable wrapper `c_perform_operation`. The core APIs it calls
(`PublicG1Api`, `PublicG2Api`, `PairingApiImplementation`, the decoding
helpers and the error type) live in other modules of the crate; here they are
kept abstract as fields of a `CoreApi` record, since every claim concerns the
dispatch layer itself. Machine bytes are modelled as `Nat`, byte buffers as
`List Nat`, and the caller-owned C buffers as an explicit `CState` record
threaded through `c_perform_operation`.
-/

set_option maxRecDepth 10000
set_option maxHeartbeats 1000000

/-- Buffer capacity reserved by the caller for error descriptions
(`unified_api.rs`, `PREALLOCATE_FOR_ERROR_BYTES`). -/
def PREALLOCATE_FOR_ERROR_BYTES : Nat := 256

/-- Buffer capacity reserved by the caller for results
(`unified_api.rs`, `PREALLOCATE_FOR_RESULT_BYTES`). -/
def PREALLOCATE_FOR_RESULT_BYTES : Nat := 768

/-- Modelled from the spec: `MAX_MODULUS_BYTE_LEN` is declared in
`public_interface/constants.rs`, which is not under `src/`. The spec sizes the
768-byte result reserve as "three times twice the maximum supported modulus
byte length", and the crate's own `const_assert` at `unified_api.rs:12`
requires `PREALLOCATE_FOR_RESULT_BYTES == MAX_MODULUS_BYTE_LEN * 3 * 2`,
fixing the value at 128. -/
def MAX_MODULUS_BYTE_LEN : Nat := 128

/-- The operation kinds of `unified_api.rs` (`enum OperationType`). -/
inductive OperationType where
  | G1ADD
  | G1MUL
  | G1MULTIEXP
  | G2ADD
  | G2MUL
  | G2MULTIEXP
  | BLS12PAIR
  | BNPAIR
  | MNT4PAIR
  | MNT6PAIR
deriving DecidableEq, Repr

/-- The `#[repr(u8)]` discriminant assigned to each variant in the source. -/
def OperationType.rawValue : OperationType → Nat
  | .G1ADD => 1
  | .G1MUL => 2
  | .G1MULTIEXP => 3
  | .G2ADD => 4
  | .G2MUL => 5
  | .G2MULTIEXP => 6
  | .BLS12PAIR => 7
  | .BNPAIR => 8
  | .MNT4PAIR => 9
  | .MNT6PAIR => 10

def G1ADD_OPERATION_RAW_VALUE : Nat := OperationType.G1ADD.rawValue

def G1MUL_OPERATION_RAW_VALUE : Nat := OperationType.G1MUL.rawValue

def G1MULTIEXP_OPERATION_RAW_VALUE : Nat := OperationType.G1MULTIEXP.rawValue

def G2ADD_OPERATION_RAW_VALUE : Nat := OperationType.G2ADD.rawValue

def G2MUL_OPERATION_RAW_VALUE : Nat := OperationType.G2MUL.rawValue

def G2MULTIEXP_OPERATION_RAW_VALUE : Nat := OperationType.G2MULTIEXP.rawValue

def BLS12PAIR_OPERATION_RAW_VALUE : Nat := OperationType.BLS12PAIR.rawValue

def BNPAI_OPERATION_RAW_VALUE : Nat := OperationType.BNPAIR.rawValue

def MNT4PAIR_OPERATION_RAW_VALUE : Nat := OperationType.MNT4PAIR.rawValue

def MNT6PAIR_OPERATION_RAW_VALUE : Nat := OperationType.MNT6PAIR.rawValue

/-- Modelled from the spec: the typed error taxonomy of `crate::errors::ApiError`
(declared outside `src/`): `InputError`, `UnsupportedParameters`,
`InvalidPoint`, `InvalidSubgroup`, `UnexpectedZero`, each carrying the bytes
of its human-readable description (the spec: "Errors are typed values carrying
enough information to produce a human-readable description at the boundary"). -/
inductive ApiError where
  | InputError : List Nat → ApiError
  | UnsupportedParameters : List Nat → ApiError
  | InvalidPoint : List Nat → ApiError
  | InvalidSubgroup : List Nat → ApiError
  | UnexpectedZero : List Nat → ApiError
deriving DecidableEq, Repr

/-- The human-readable description carried by a typed error, as read at the
boundary through `std::error::Error::description`. -/
def ApiError.description : ApiError → List Nat
  | .InputError m => m
  | .UnsupportedParameters m => m
  | .InvalidPoint m => m
  | .InvalidSubgroup m => m
  | .UnexpectedZero m => m

/-- The callees of `unified_api.rs` declared in other modules of the crate
(`g1_ops`, `g2_ops`, `pairing_ops`, `decode_utils`, `field`), kept abstract:
the claims concern only the dispatch layer. `parse_modulus_and_length`
returns (modulus byte length, modulus, remaining bytes); each `pair_*` takes
the selected limb count (the monomorphization index chosen by
`expand_for_modulus_limbs!`) and the full input. -/
structure CoreApi where
  g1_add_points : List Nat → Except ApiError (List Nat)
  g1_mul_point : List Nat → Except ApiError (List Nat)
  g1_multiexp : List Nat → Except ApiError (List Nat)
  g2_add_points : List Nat → Except ApiError (List Nat)
  g2_mul_point : List Nat → Except ApiError (List Nat)
  g2_multiexp : List Nat → Except ApiError (List Nat)
  parse_modulus_and_length : List Nat → Except ApiError (Nat × Nat × List Nat)
  num_limbs_for_modulus : Nat → Except ApiError Nat
  pair_bls12 : Nat → List Nat → Except ApiError (List Nat)
  pair_bn : Nat → List Nat → Except ApiError (List Nat)
  pair_mnt4 : Nat → List Nat → Except ApiError (List Nat)
  pair_mnt6 : Nat → List Nat → Except ApiError (List Nat)

/-- The `let modulus_limbs = { ... }` block of `perform_operation`
(`unified_api.rs:66-71`): parse the modulus from the input, then select the
limb count for it; `?` propagates either failure immediately. -/
def modulus_limbs_for_input (api : CoreApi) (input : List Nat) : Except ApiError Nat :=
  match api.parse_modulus_and_length input with
  | .error e => .error e
  | .ok (_, modulus, _) => api.num_limbs_for_modulus modulus

/-- The pure-Rust dispatcher `perform_operation` (`unified_api.rs:42-101`).
For the four pairing kinds the limb count is computed once and the inner
match dispatches on the same `operation`; the final arm models the
`unreachable!()` of the source (dead: the outer match already restricted
`operation` to the four pairing kinds). -/
def perform_operation (api : CoreApi) (operation : OperationType) (input : List Nat) :
    Except ApiError (List Nat) :=
  match operation with
  | .G1ADD => api.g1_add_points input
  | .G1MUL => api.g1_mul_point input
  | .G1MULTIEXP => api.g1_multiexp input
  | .G2ADD => api.g2_add_points input
  | .G2MUL => api.g2_mul_point input
  | .G2MULTIEXP => api.g2_multiexp input
  | .BLS12PAIR | .BNPAIR | .MNT4PAIR | .MNT6PAIR =>
    match modulus_limbs_for_input api input with
    | .error e => .error e
    | .ok modulus_limbs =>
      match operation with
      | .BLS12PAIR => api.pair_bls12 modulus_limbs input
      | .BNPAIR => api.pair_bn modulus_limbs input
      | .MNT4PAIR => api.pair_mnt4 modulus_limbs input
      | .MNT6PAIR => api.pair_mnt6 modulus_limbs input
      | _ => .error (ApiError.InputError [])

/-- The operation-code validation of `c_perform_operation`
(`unified_api.rs:120-161`): the raw byte is compared against each of the ten
`*_OPERATION_RAW_VALUE` constants in declaration order; only a successful
comparison names a variant, and any other byte falls to the error arm
(modelled as `none`). -/
def byteToOperation (op_u8 : Nat) : Option OperationType :=
  if op_u8 = G1ADD_OPERATION_RAW_VALUE then some .G1ADD
  else if op_u8 = G1MUL_OPERATION_RAW_VALUE then some .G1MUL
  else if op_u8 = G1MULTIEXP_OPERATION_RAW_VALUE then some .G1MULTIEXP
  else if op_u8 = G2ADD_OPERATION_RAW_VALUE then some .G2ADD
  else if op_u8 = G2MUL_OPERATION_RAW_VALUE then some .G2MUL
  else if op_u8 = G2MULTIEXP_OPERATION_RAW_VALUE then some .G2MULTIEXP
  else if op_u8 = BLS12PAIR_OPERATION_RAW_VALUE then some .BLS12PAIR
  else if op_u8 = BNPAI_OPERATION_RAW_VALUE then some .BNPAIR
  else if op_u8 = MNT4PAIR_OPERATION_RAW_VALUE then some .MNT4PAIR
  else if op_u8 = MNT6PAIR_OPERATION_RAW_VALUE then some .MNT6PAIR
  else none

/-- The bytes of `b"Unknown operation type\0"` written on an unrecognized
operation code (`unified_api.rs:152`). -/
def UNKNOWN_OPERATION_MSG : List Nat :=
  ("Unknown operation type".data.map Char.toNat) ++ [0]

/-- Semantics of Rust's `std::io::Write` impl for `&mut [u8]` over a slice of
length `cap` taken at the front of the caller's buffer `buf`: copy
`min (data.length) cap` bytes to the front, leave the rest of the buffer
untouched, and return the new buffer contents together with the number of
bytes copied (the write itself never errors). -/
def writeWindow (buf : List Nat) (cap : Nat) (data : List Nat) : List Nat × Nat :=
  let n := min data.length cap
  (data.take n ++ buf.drop n, n)

/-- The caller-owned locations mutated by `c_perform_operation`: the result
buffer `o`, the result length `*o_len`, the error buffer `err`, and the error
length `*char_len`. -/
structure CState where
  o : List Nat
  o_len : Nat
  err : List Nat
  char_len : Nat
deriving DecidableEq, Repr

/-- The C-callable wrapper `c_perform_operation` (`unified_api.rs:104-202`),
returning the status code and the final buffer state. The branch writing
`b"Failed to write the result"` in the source is dead, because a slice write
always returns `Ok`. The result write uses a window of
`PREALLOCATE_FOR_ERROR_BYTES` bytes, faithful to the slice created at
`unified_api.rs:166` with that constant. -/
def c_perform_operation (api : CoreApi) (op : Nat) (input : List Nat) (s : CState) :
    Nat × CState :=
  match byteToOperation op with
  | none =>
    let w := writeWindow s.err PREALLOCATE_FOR_ERROR_BYTES UNKNOWN_OPERATION_MSG
    (1, { s with err := w.1, char_len := w.2 })
  | some operation =>
    match perform_operation api operation input with
    | .ok result =>
      let w := writeWindow s.o PREALLOCATE_FOR_ERROR_BYTES result
      (0, { s with o := w.1, o_len := w.2 })
    | .error error =>
      let w := writeWindow s.err PREALLOCATE_FOR_ERROR_BYTES error.description
      (1, { s with err := w.1, char_len := w.2 })

/-- A `CoreApi` instance whose callees all fail; used to build concrete
instances for witnesses by overriding single fields. -/
def errApi : CoreApi where
  g1_add_points := fun _ => .error (ApiError.InputError [])
  g1_mul_point := fun _ => .error (ApiError.InputError [])
  g1_multiexp := fun _ => .error (ApiError.InputError [])
  g2_add_points := fun _ => .error (ApiError.InputError [])
  g2_mul_point := fun _ => .error (ApiError.InputError [])
  g2_multiexp := fun _ => .error (ApiError.InputError [])
  parse_modulus_and_length := fun _ => .error (ApiError.InputError [])
  num_limbs_for_modulus := fun _ => .error (ApiError.UnsupportedParameters [])
  pair_bls12 := fun _ _ => .error (ApiError.InputError [])
  pair_bn := fun _ _ => .error (ApiError.InputError [])
  pair_mnt4 := fun _ _ => .error (ApiError.InputError [])
  pair_mnt6 := fun _ _ => .error (ApiError.InputError [])

/-- A `CoreApi` instance whose modulus parsing and limb selection succeed
(modulus 5, 4 limbs) and whose pairing callees return distinct results, so
that dispatch can be observed on concrete inputs. -/
def okApi : CoreApi :=
  { errApi with
    g1_add_points := fun _ => .ok [11]
    g1_mul_point := fun _ => .ok [12]
    g1_multiexp := fun _ => .ok [13]
    g2_add_points := fun _ => .ok [14]
    g2_mul_point := fun _ => .ok [15]
    g2_multiexp := fun _ => .ok [16]
    parse_modulus_and_length := fun rest => .ok (1, 5, rest)
    num_limbs_for_modulus := fun _ => .ok 4
    pair_bls12 := fun n _ => .ok [17, n]
    pair_bn := fun n _ => .ok [18, n]
    pair_mnt4 := fun n _ => .ok [19, n]
    pair_mnt6 := fun n _ => .ok [20, n] }

/-- C4 -- The reserved error-description capacity equals exactly 256 bytes,
the reserved result capacity equals exactly 768 bytes, and 768 equals three
times twice the maximum supported modulus byte length. -/
theorem preallocate_sizes :
    PREALLOCATE_FOR_ERROR_BYTES = 256 ∧
    PREALLOCATE_FOR_RESULT_BYTES = 768 ∧
    PREALLOCATE_FOR_RESULT_BYTES = MAX_MODULUS_BYTE_LEN * 3 * 2 := by
  refine ⟨rfl, rfl, rfl⟩

/-- Helper: every byte outside {1,...,10} falls through all ten comparisons of
the operation-code match and produces no `OperationType`. -/
theorem byteToOperation_eq_none (op : Nat) (h : ¬ (1 ≤ op ∧ op ≤ 10)) :
    byteToOperation op = none := by
  have h1 : op ≠ G1ADD_OPERATION_RAW_VALUE := by
    simp only [G1ADD_OPERATION_RAW_VALUE, OperationType.rawValue]; omega
  have h2 : op ≠ G1MUL_OPERATION_RAW_VALUE := by
    simp only [G1MUL_OPERATION_RAW_VALUE, OperationType.rawValue]; omega
  have h3 : op ≠ G1MULTIEXP_OPERATION_RAW_VALUE := by
    simp only [G1MULTIEXP_OPERATION_RAW_VALUE, OperationType.rawValue]; omega
  have h4 : op ≠ G2ADD_OPERATION_RAW_VALUE := by
    simp only [G2ADD_OPERATION_RAW_VALUE, OperationType.rawValue]; omega
  have h5 : op ≠ G2MUL_OPERATION_RAW_VALUE := by
    simp only [G2MUL_OPERATION_RAW_VALUE, OperationType.rawValue]; omega
  have h6 : op ≠ G2MULTIEXP_OPERATION_RAW_VALUE := by
    simp only [G2MULTIEXP_OPERATION_RAW_VALUE, OperationType.rawValue]; omega
  have h7 : op ≠ BLS12PAIR_OPERATION_RAW_VALUE := by
    simp only [BLS12PAIR_OPERATION_RAW_VALUE, OperationType.rawValue]; omega
  have h8 : op ≠ BNPAI_OPERATION_RAW_VALUE := by
    simp only [BNPAI_OPERATION_RAW_VALUE, OperationType.rawValue]; omega
  have h9 : op ≠ MNT4PAIR_OPERATION_RAW_VALUE := by
    simp only [MNT4PAIR_OPERATION_RAW_VALUE, OperationType.rawValue]; omega
  have h10 : op ≠ MNT6PAIR_OPERATION_RAW_VALUE := by
    simp only [MNT6PAIR_OPERATION_RAW_VALUE, OperationType.rawValue]; omega
  rw [byteToOperation, if_neg h1, if_neg h2, if_neg h3, if_neg h4, if_neg h5,
    if_neg h6, if_neg h7, if_neg h8, if_neg h9, if_neg h10]

/-- C2 -- `perform_operation` dispatches G1ADD/G1MUL/G1MULTIEXP to the
`PublicG1Api` calls, G2ADD/G2MUL/G2MULTIEXP to the `PublicG2Api` calls, and
each pairing kind to the pairing implementation instantiated at the limb
count selected for the input; the `OperationType` numeric codes are exactly
1 through 10 in declaration order. -/
theorem perform_operation_dispatch (api : CoreApi) (input : List Nat) (n : Nat)
    (hn : modulus_limbs_for_input api input = .ok n) :
    perform_operation api .G1ADD input = api.g1_add_points input ∧
    perform_operation api .G1MUL input = api.g1_mul_point input ∧
    perform_operation api .G1MULTIEXP input = api.g1_multiexp input ∧
    perform_operation api .G2ADD input = api.g2_add_points input ∧
    perform_operation api .G2MUL input = api.g2_mul_point input ∧
    perform_operation api .G2MULTIEXP input = api.g2_multiexp input ∧
    perform_operation api .BLS12PAIR input = api.pair_bls12 n input ∧
    perform_operation api .BNPAIR input = api.pair_bn n input ∧
    perform_operation api .MNT4PAIR input = api.pair_mnt4 n input ∧
    perform_operation api .MNT6PAIR input = api.pair_mnt6 n input ∧
    OperationType.G1ADD.rawValue = 1 ∧ OperationType.G1MUL.rawValue = 2 ∧
    OperationType.G1MULTIEXP.rawValue = 3 ∧ OperationType.G2ADD.rawValue = 4 ∧
    OperationType.G2MUL.rawValue = 5 ∧ OperationType.G2MULTIEXP.rawValue = 6 ∧
    OperationType.BLS12PAIR.rawValue = 7 ∧ OperationType.BNPAIR.rawValue = 8 ∧
    OperationType.MNT4PAIR.rawValue = 9 ∧ OperationType.MNT6PAIR.rawValue = 10 := by
  refine ⟨rfl, rfl, rfl, rfl, rfl, rfl, ?_, ?_, ?_, ?_,
    rfl, rfl, rfl, rfl, rfl, rfl, rfl, rfl, rfl, rfl⟩ <;>
    simp [perform_operation, hn]

theorem perform_operation_dispatch_witness :
    perform_operation okApi .G1ADD [] = okApi.g1_add_points [] ∧
    perform_operation okApi .BLS12PAIR [] = okApi.pair_bls12 4 [] :=
  ⟨(perform_operation_dispatch okApi [] 4 rfl).1,
   (perform_operation_dispatch okApi [] 4 rfl).2.2.2.2.2.2.1⟩

/-- C3 -- For every operation-code byte outside {1,...,10},
`c_perform_operation` writes the fixed message `b"Unknown operation type\0"`
into the error buffer, sets `*char_len` to its length, returns the nonzero
status 1, and behaves identically for every core and every input:
`perform_operation` is never invoked and no typed core error is produced. -/
theorem c_unknown_operation_code (api1 api2 : CoreApi) (op : Nat)
    (input1 input2 : List Nat) (s : CState) (h : ¬ (1 ≤ op ∧ op ≤ 10)) :
    (c_perform_operation api1 op input1 s).1 = 1 ∧
    ((c_perform_operation api1 op input1 s).2).err =
      UNKNOWN_OPERATION_MSG ++ s.err.drop UNKNOWN_OPERATION_MSG.length ∧
    ((c_perform_operation api1 op input1 s).2).char_len = UNKNOWN_OPERATION_MSG.length ∧
    c_perform_operation api1 op input1 s = c_perform_operation api2 op input2 s := by
  have hb : byteToOperation op = none := byteToOperation_eq_none op h
  have hmin : min UNKNOWN_OPERATION_MSG.length PREALLOCATE_FOR_ERROR_BYTES =
      UNKNOWN_OPERATION_MSG.length := by decide
  have htake : UNKNOWN_OPERATION_MSG.take UNKNOWN_OPERATION_MSG.length =
      UNKNOWN_OPERATION_MSG := List.take_length _
  refine ⟨?_, ?_, ?_, ?_⟩ <;> simp [c_perform_operation, hb, writeWindow, hmin, htake]

theorem c_unknown_operation_code_witness :
    (c_perform_operation errApi 11 [] (CState.mk [] 0 [] 0)).1 = 1 ∧
    ((c_perform_operation errApi 11 [] (CState.mk [] 0 [] 0)).2).err =
      UNKNOWN_OPERATION_MSG ++ (CState.mk [] 0 [] 0).err.drop UNKNOWN_OPERATION_MSG.length ∧
    ((c_perform_operation errApi 11 [] (CState.mk [] 0 [] 0)).2).char_len =
      UNKNOWN_OPERATION_MSG.length ∧
    c_perform_operation errApi 11 [] (CState.mk [] 0 [] 0) =
      c_perform_operation okApi 11 [5] (CState.mk [] 0 [] 0) :=
  c_unknown_operation_code errApi okApi 11 [] [5] (CState.mk [] 0 [] 0) (by decide)

/-- C5 -- For each pairing kind (codes 7 through 10) the modulus is parsed
and a limb count selected once; on success `perform_operation` dispatches to
the pairing implementation instantiated for that limb count, and on failure
the typed error is returned immediately, unchanged, for every choice of the
four pairing implementations (none of them is invoked). -/
theorem pairing_dispatch_and_short_circuit (api : CoreApi) (input : List Nat) :
    (∀ n, modulus_limbs_for_input api input = .ok n →
      perform_operation api .BLS12PAIR input = api.pair_bls12 n input ∧
      perform_operation api .BNPAIR input = api.pair_bn n input ∧
      perform_operation api .MNT4PAIR input = api.pair_mnt4 n input ∧
      perform_operation api .MNT6PAIR input = api.pair_mnt6 n input) ∧
    (∀ e, modulus_limbs_for_input api input = .error e →
      ∀ f1 f2 f3 f4,
        perform_operation
          { api with pair_bls12 := f1, pair_bn := f2, pair_mnt4 := f3, pair_mnt6 := f4 }
          .BLS12PAIR input = .error e ∧
        perform_operation
          { api with pair_bls12 := f1, pair_bn := f2, pair_mnt4 := f3, pair_mnt6 := f4 }
          .BNPAIR input = .error e ∧
        perform_operation
          { api with pair_bls12 := f1, pair_bn := f2, pair_mnt4 := f3, pair_mnt6 := f4 }
          .MNT4PAIR input = .error e ∧
        perform_operation
          { api with pair_bls12 := f1, pair_bn := f2, pair_mnt4 := f3, pair_mnt6 := f4 }
          .MNT6PAIR input = .error e) := by
  constructor
  · intro n hn
    refine ⟨?_, ?_, ?_, ?_⟩ <;> simp [perform_operation, hn]
  · intro e he f1 f2 f3 f4
    have he2 : modulus_limbs_for_input
        { api with pair_bls12 := f1, pair_bn := f2, pair_mnt4 := f3, pair_mnt6 := f4 }
        input = .error e := he
    refine ⟨?_, ?_, ?_, ?_⟩ <;> simp [perform_operation, he2]

theorem pairing_dispatch_and_short_circuit_witness :
    (perform_operation okApi .BNPAIR [9] = okApi.pair_bn 4 [9]) ∧
    perform_operation
      { errApi with
        pair_bls12 := fun _ _ => Except.ok [1]
        pair_bn := fun _ _ => Except.ok [2]
        pair_mnt4 := fun _ _ => Except.ok [3]
        pair_mnt6 := fun _ _ => Except.ok [4] }
      .MNT6PAIR [] = .error (ApiError.InputError []) :=
  ⟨((pairing_dispatch_and_short_circuit okApi [9]).1 4 rfl).2.1,
   ((pairing_dispatch_and_short_circuit errApi []).2 (ApiError.InputError []) rfl
      (fun _ _ => .ok [1]) (fun _ _ => .ok [2]) (fun _ _ => .ok [3]) (fun _ _ => .ok [4])).2.2.2⟩

/-- C6 -- The raw operation-code byte is validated against the closed set of
ten known codes before any `OperationType` value is produced: a variant is
returned only when the byte equals that variant's declared discriminant, and
a byte yields some `OperationType` exactly when it lies in {1,...,10}. -/
theorem byte_validation (b : Nat) :
    (∀ t : OperationType, byteToOperation b = some t → b = OperationType.rawValue t) ∧
    ((byteToOperation b).isSome ↔ b ∈ [1, 2, 3, 4, 5, 6, 7, 8, 9, 10]) := by
  by_cases hb : b ≤ 10
  · interval_cases b <;> exact ⟨by decide, by decide⟩
  · have hnone : byteToOperation b = none := byteToOperation_eq_none b (by omega)
    constructor
    · intro t ht
      rw [hnone] at ht
      exact absurd ht (by simp)
    · rw [hnone]
      simp only [Option.isSome_none, Bool.false_eq_true, false_iff, List.mem_cons,
        List.not_mem_nil, or_false]
      omega

theorem byte_validation_witness :
    7 = OperationType.rawValue OperationType.BLS12PAIR ∧
    ((byteToOperation 12).isSome ↔ 12 ∈ [1, 2, 3, 4, 5, 6, 7, 8, 9, 10]) :=
  ⟨(byte_validation 7).1 OperationType.BLS12PAIR rfl, (byte_validation 12).2⟩

/-- C7 -- `perform_operation` is deterministic and stateless: two invocations
with equal operation kinds and equal input byte strings return equal outcomes.
The embedding is a pure function of the operation kind and the input bytes
(the source has no shared or persisted state), and the status code of the C
wrapper additionally does not depend on the prior contents of any caller
buffer. -/
theorem perform_operation_deterministic (api : CoreApi) (op1 op2 : OperationType)
    (input1 input2 : List Nat) (s1 s2 : CState) (hop : op1 = op2) (hin : input1 = input2) :
    perform_operation api op1 input1 = perform_operation api op2 input2 ∧
    (c_perform_operation api op1.rawValue input1 s1).1 =
      (c_perform_operation api op2.rawValue input2 s2).1 := by
  subst hop hin
  refine ⟨rfl, ?_⟩
  cases hb : byteToOperation op1.rawValue with
  | none => simp [c_perform_operation, hb]
  | some t =>
    cases hr : perform_operation api t input1 <;> simp [c_perform_operation, hb, hr]

theorem perform_operation_deterministic_witness :
    perform_operation okApi .G1ADD [3] = perform_operation okApi .G1ADD [3] ∧
    (c_perform_operation okApi (OperationType.G1ADD.rawValue) [3] (CState.mk [0] 0 [0] 0)).1 =
      (c_perform_operation okApi (OperationType.G1ADD.rawValue) [3] (CState.mk [9] 9 [9] 9)).1 :=
  perform_operation_deterministic okApi .G1ADD .G1ADD [3] [3]
    (CState.mk [0] 0 [0] 0) (CState.mk [9] 9 [9] 9) rfl rfl

/-- C8 -- Whenever `perform_operation` returns a typed error, the C wrapper
writes that error's human-readable description (obtained at the boundary from
the typed error value via `ApiError.description`, truncated to the 256-byte
error reserve) into the caller's error buffer, sets `*char_len` to the number
of bytes written, and returns 1. -/
theorem c_error_reporting (api : CoreApi) (b : Nat) (t : OperationType)
    (input : List Nat) (s : CState) (e : ApiError)
    (hb : byteToOperation b = some t)
    (he : perform_operation api t input = .error e) :
    (c_perform_operation api b input s).1 = 1 ∧
    ((c_perform_operation api b input s).2).char_len =
      min e.description.length PREALLOCATE_FOR_ERROR_BYTES ∧
    ((c_perform_operation api b input s).2).err =
      e.description.take (min e.description.length PREALLOCATE_FOR_ERROR_BYTES) ++
        s.err.drop (min e.description.length PREALLOCATE_FOR_ERROR_BYTES) := by
  refine ⟨?_, ?_, ?_⟩ <;> simp [c_perform_operation, hb, he, writeWindow]

def invalidPointApi : CoreApi :=
  { errApi with g1_add_points := fun _ => Except.error (ApiError.InvalidPoint [66, 67]) }

theorem c_error_reporting_witness :
    (c_perform_operation invalidPointApi 1 [] (CState.mk [7, 7] 0 [9, 9, 9] 0)).1 = 1 ∧
    ((c_perform_operation invalidPointApi 1 [] (CState.mk [7, 7] 0 [9, 9, 9] 0)).2).char_len =
      min (ApiError.InvalidPoint [66, 67]).description.length PREALLOCATE_FOR_ERROR_BYTES ∧
    ((c_perform_operation invalidPointApi 1 [] (CState.mk [7, 7] 0 [9, 9, 9] 0)).2).err =
      (ApiError.InvalidPoint [66, 67]).description.take
          (min (ApiError.InvalidPoint [66, 67]).description.length PREALLOCATE_FOR_ERROR_BYTES) ++
        (CState.mk [7, 7] 0 [9, 9, 9] 0).err.drop
          (min (ApiError.InvalidPoint [66, 67]).description.length PREALLOCATE_FOR_ERROR_BYTES) :=
  c_error_reporting invalidPointApi 1 .G1ADD [] (CState.mk [7, 7] 0 [9, 9, 9] 0)
    (ApiError.InvalidPoint [66, 67]) rfl rfl

/-- C9 -- On every failure path of `c_perform_operation` (unrecognized
operation code, or a typed error returned by `perform_operation`), the
caller's result buffer `o` and result length `*o_len` are left unmodified;
only the error buffer and `*char_len` are written. -/
theorem c_failure_frame (api : CoreApi) (b : Nat) (input : List Nat) (s : CState)
    (h : byteToOperation b = none ∨
      ∃ t e, byteToOperation b = some t ∧ perform_operation api t input = .error e) :
    ((c_perform_operation api b input s).2).o = s.o ∧
    ((c_perform_operation api b input s).2).o_len = s.o_len := by
  rcases h with hb | ⟨t, e, hb, he⟩
  · simp [c_perform_operation, hb]
  · simp [c_perform_operation, hb, he]

theorem c_failure_frame_witness :
    ((c_perform_operation errApi 0 [] (CState.mk [1] 2 [3] 4)).2).o = (CState.mk [1] 2 [3] 4).o ∧
    ((c_perform_operation errApi 0 [] (CState.mk [1] 2 [3] 4)).2).o_len =
      (CState.mk [1] 2 [3] 4).o_len :=
  c_failure_frame errApi 0 [] (CState.mk [1] 2 [3] 4) (Or.inl rfl)

/-- C10 -- `c_perform_operation` returns 0 exactly when the dispatched
operation succeeded, meaning the code byte named a known operation and
`perform_operation` returned `Ok` (whose bytes were then written to the
output buffer); every other path, an unknown operation code or a typed
error, returns 1. -/
theorem c_return_code (api : CoreApi) (b : Nat) (input : List Nat) (s : CState) :
    ((c_perform_operation api b input s).1 = 0 ↔
      ∃ t r, byteToOperation b = some t ∧ perform_operation api t input = .ok r) ∧
    ((c_perform_operation api b input s).1 = 0 ∨ (c_perform_operation api b input s).1 = 1) := by
  cases hb : byteToOperation b with
  | none => simp [c_perform_operation, hb]
  | some t =>
    cases hr : perform_operation api t input with
    | ok r => simp [c_perform_operation, hb, hr]
    | error e => simp [c_perform_operation, hb, hr]

/-- A core whose G1ADD returns a 300-byte result, exhibiting the output
window of `c_perform_operation` on a result larger than 256 bytes. -/
def bigResultApi : CoreApi :=
  { errApi with g1_add_points := fun _ => Except.ok (List.replicate 300 7) }

/-- A caller state with the documented preallocations: a 768-byte result
buffer and a 256-byte error buffer, both zeroed. -/
def initState : CState :=
  CState.mk (List.replicate PREALLOCATE_FOR_RESULT_BYTES 0) 0
    (List.replicate PREALLOCATE_FOR_ERROR_BYTES 0) 0

/-- C1 -- Refuted at a concrete input: with a core whose G1ADD succeeds with
a 300-byte result (within the 768-byte result reserve), the wrapper returns
0 but sets `*o_len = 256` and writes only the first 256 result bytes into
the caller's 768-byte buffer, truncating the result: the output slice is
created with `PREALLOCATE_FOR_ERROR_BYTES` (`unified_api.rs:166`) instead of
`PREALLOCATE_FOR_RESULT_BYTES`. -/
theorem c_result_truncated :
    perform_operation bigResultApi .G1ADD [] = .ok (List.replicate 300 7) ∧
    (List.replicate 300 7).length ≤ PREALLOCATE_FOR_RESULT_BYTES ∧
    (c_perform_operation bigResultApi G1ADD_OPERATION_RAW_VALUE [] initState).1 = 0 ∧
    ((c_perform_operation bigResultApi G1ADD_OPERATION_RAW_VALUE [] initState).2).o_len = 256 ∧
    ((c_perform_operation bigResultApi G1ADD_OPERATION_RAW_VALUE [] initState).2).o.take 300 ≠
      List.replicate 300 7 := by
  refine ⟨rfl, by decide, rfl, by decide, by decide⟩
